import Mathlib

/-!
Verification of the byte-order conversion module of hodea-core-slib
(`src/hodea/core/cpu_endian.hpp`).

The module converts fixed-width unsigned integers between CPU-native
byte order and a specified (little/big) byte order.  The CPU's byte
order is a single compile-time boolean `HODEA_IS_CPU_LE`; we embed it
as an explicit `Bool` parameter `le` threaded through every function.
Machine integers `uintN_t` are embedded as `Nat` together with range
hypotheses `x < 2 ^ N` where the width matters.
-/

namespace Hodea

/-! ### Byte-swap primitives

`cpu_endian.hpp` includes `hodea/core/uswap.hpp` for the unconditional
byte-swap primitives `uswap16`, `uswap32`, `uswap64`.  That header is
not part of the provided sources, so the primitives are modelled from
the specification.  Powers of 256 are written as numerals. -/

/-- Modelled from the spec: `uswap16` from `hodea/core/uswap.hpp` (header not
in the provided sources).  Spec §4.1 Algorithm: byte reversal of a 16-bit
unsigned integer — shift-and-mask decomposition into 2 bytes, reassembled in
reverse order. -/
def uswap16 (x : ℕ) : ℕ := (x % 256) * 256 + x / 256 % 256

/-- Modelled from the spec: `uswap32` from `hodea/core/uswap.hpp` (header not
in the provided sources).  Spec §4.1 Algorithm: byte reversal of a 32-bit
unsigned integer — shift-and-mask decomposition into 4 bytes, reassembled in
reverse order. -/
def uswap32 (x : ℕ) : ℕ :=
  (x % 256) * 16777216 + (x / 256 % 256) * 65536 +
  (x / 65536 % 256) * 256 + x / 16777216 % 256

/-- Modelled from the spec: `uswap64` from `hodea/core/uswap.hpp` (header not
in the provided sources).  Spec §4.1 Algorithm: byte reversal of a 64-bit
unsigned integer — shift-and-mask decomposition into 8 bytes, reassembled in
reverse order. -/
def uswap64 (x : ℕ) : ℕ :=
  (x % 256) * 72057594037927936 + (x / 256 % 256) * 281474976710656 +
  (x / 65536 % 256) * 1099511627776 + (x / 16777216 % 256) * 4294967296 +
  (x / 4294967296 % 256) * 16777216 + (x / 1099511627776 % 256) * 65536 +
  (x / 281474976710656 % 256) * 256 + x / 72057594037927936 % 256

/-! ### Endianness queries (`cpu_endian.hpp`, lines 74–90)

`HODEA_IS_CPU_LE` is the build-time flag, embedded as the parameter
`le : Bool`; `HODEA_IS_CPU_BE` is defined in the source as
`(!HODEA_IS_CPU_LE)`. -/

/-- `constexpr bool is_cpu_le() \x7b return HODEA_IS_CPU_LE; \x7d` -/
def is_cpu_le (le : Bool) : Bool := le

/-- `constexpr bool is_cpu_be() \x7b return HODEA_IS_CPU_BE; \x7d` with
`#define HODEA_IS_CPU_BE (!HODEA_IS_CPU_LE)`. -/
def is_cpu_be (le : Bool) : Bool := !le

/-! ### CPU → specified order (`cpu_endian.hpp`, lines 95–138) -/

/-- `cpu_to_le16(x) = (is_cpu_le() ? x : uswap16(x))` -/
def cpu_to_le16 (le : Bool) (x : ℕ) : ℕ :=
  if is_cpu_le le then x else uswap16 x

/-- `cpu_to_le32(x) = (is_cpu_le() ? x : uswap32(x))` -/
def cpu_to_le32 (le : Bool) (x : ℕ) : ℕ :=
  if is_cpu_le le then x else uswap32 x

/-- `cpu_to_le64(x) = (is_cpu_le() ? x : uswap64(x))` -/
def cpu_to_le64 (le : Bool) (x : ℕ) : ℕ :=
  if is_cpu_le le then x else uswap64 x

/-- `cpu_to_be16(x) = (is_cpu_be() ? x : uswap16(x))` -/
def cpu_to_be16 (le : Bool) (x : ℕ) : ℕ :=
  if is_cpu_be le then x else uswap16 x

/-- `cpu_to_be32(x) = (is_cpu_be() ? x : uswap32(x))` -/
def cpu_to_be32 (le : Bool) (x : ℕ) : ℕ :=
  if is_cpu_be le then x else uswap32 x

/-- `cpu_to_be64(x) = (is_cpu_be() ? x : uswap64(x))` -/
def cpu_to_be64 (le : Bool) (x : ℕ) : ℕ :=
  if is_cpu_be le then x else uswap64 x

/-! ### Specified order → CPU (`cpu_endian.hpp`, lines 143–186)

Each is a literal alias of the corresponding forward function. -/

/-- `le16_to_cpu(x) = cpu_to_le16(x)` -/
def le16_to_cpu (le : Bool) (x : ℕ) : ℕ := cpu_to_le16 le x

/-- `le32_to_cpu(x) = cpu_to_le32(x)` -/
def le32_to_cpu (le : Bool) (x : ℕ) : ℕ := cpu_to_le32 le x

/-- `le64_to_cpu(x) = cpu_to_le64(x)` -/
def le64_to_cpu (le : Bool) (x : ℕ) : ℕ := cpu_to_le64 le x

/-- `be16_to_cpu(x) = cpu_to_be16(x)` -/
def be16_to_cpu (le : Bool) (x : ℕ) : ℕ := cpu_to_be16 le x

/-- `be32_to_cpu(x) = cpu_to_be32(x)` -/
def be32_to_cpu (le : Bool) (x : ℕ) : ℕ := cpu_to_be32 le x

/-- `be64_to_cpu(x) = cpu_to_be64(x)` -/
def be64_to_cpu (le : Bool) (x : ℕ) : ℕ := cpu_to_be64 le x

/-! ### Build-time endianness detection (`cpu_endian.hpp`, lines 25–74)

The preprocessor chain that resolves `HODEA_IS_CPU_LE` is embedded as a
function over an explicit description of the active toolchain
configuration. -/

/-- The value of `__BYTE_ORDER__` that GCC and LLVM/clang predefine:
equal to `__ORDER_LITTLE_ENDIAN__`, `__ORDER_BIG_ENDIAN__`, or
`__ORDER_PDP_ENDIAN__`. -/
inductive ByteOrderMacro where
  | little
  | big
  | pdp
deriving DecidableEq

/-- The toolchain cases distinguished by the preprocessor chain in
`cpu_endian.hpp`, lines 33–67: GCC/clang (with its `__BYTE_ORDER__`
value), ARM Compiler V5 or older (with whether `__BIG_ENDIAN` is
defined), IAR (with the value of `__LITTLE_ENDIAN__`), or any other
compiler. -/
inductive Toolchain where
  | gccOrClang (order : ByteOrderMacro)
  | armcc (bigEndianDefined : Bool)
  | iccarm (littleEndianVal : ℕ)
  | other
deriving DecidableEq

/-- The toolchain-macro detection chain, `cpu_endian.hpp` lines 33–67:
the value `#define`d for `HODEA_IS_CPU_LE`, or `none` when no branch
defines it. -/
def detectEndianness : Toolchain → Option Bool
  | .gccOrClang .little => some true
  | .gccOrClang .big => some false
  | .gccOrClang .pdp => none
  | .armcc bigEndianDefined => some (!bigEndianDefined)
  | .iccarm littleEndianVal =>
      if littleEndianVal = 0 then some false
      else if littleEndianVal = 1 then some true
      else none
  | .other => none

/-- The final value of `HODEA_IS_CPU_LE`: the detected value when the
macro chain defines it, otherwise the value supplied on the compiler
command line (when any). -/
def resolveIsCpuLe (cmdline : Option Bool) (tc : Toolchain) : Option Bool :=
  match detectEndianness tc with
  | some b => some b
  | none => cmdline

/-- The `#error` directives emitted by `cpu_endian.hpp` lines 69–72:
non-empty exactly when `HODEA_IS_CPU_LE` remains undefined after the
detection chain and the command line. -/
def errorDirectives (cmdline : Option Bool) (tc : Toolchain) : List String :=
  if (resolveIsCpuLe cmdline tc).isNone then
    ["Unable to detect cpu endianness via predefined macros.",
     "Please provide HODEA_IS_CPU_LE = true or false via command line."]
  else []

/-! ### Specification-side notions -/

/-- The byte at position `i` (position 0 = least significant byte) of the
binary representation of `x`. -/
def byteAt (x i : ℕ) : ℕ := x / 256 ^ i % 256

/-! ### Helper lemmas about the byte-swap primitives -/

/-- `uswap16` on an explicit two-byte decomposition. -/
lemma uswap16_bytes (b1 b0 : ℕ) (h1 : b1 < 256) (h0 : b0 < 256) :
    uswap16 (b1 * 256 + b0) = b0 * 256 + b1 := by
  have e0 : (b1 * 256 + b0) % 256 = b0 := by omega
  have e1 : (b1 * 256 + b0) / 256 % 256 = b1 := by omega
  simp only [uswap16, e0, e1]

/-- `uswap32` on an explicit four-byte decomposition. -/
lemma uswap32_bytes (b3 b2 b1 b0 : ℕ)
    (h3 : b3 < 256) (h2 : b2 < 256) (h1 : b1 < 256) (h0 : b0 < 256) :
    uswap32 (b3 * 16777216 + b2 * 65536 + b1 * 256 + b0) =
      b0 * 16777216 + b1 * 65536 + b2 * 256 + b3 := by
  have e0 : (b3 * 16777216 + b2 * 65536 + b1 * 256 + b0) % 256 = b0 := by omega
  have e1 : (b3 * 16777216 + b2 * 65536 + b1 * 256 + b0) / 256 % 256 = b1 := by omega
  have e2 : (b3 * 16777216 + b2 * 65536 + b1 * 256 + b0) / 65536 % 256 = b2 := by omega
  have e3 : (b3 * 16777216 + b2 * 65536 + b1 * 256 + b0) / 16777216 % 256 = b3 := by omega
  simp only [uswap32, e0, e1, e2, e3]

set_option maxHeartbeats 2000000 in
/-- `uswap64` on an explicit eight-byte decomposition. -/
lemma uswap64_bytes (b7 b6 b5 b4 b3 b2 b1 b0 : ℕ)
    (h7 : b7 < 256) (h6 : b6 < 256) (h5 : b5 < 256) (h4 : b4 < 256)
    (h3 : b3 < 256) (h2 : b2 < 256) (h1 : b1 < 256) (h0 : b0 < 256) :
    uswap64 (b7 * 72057594037927936 + b6 * 281474976710656 + b5 * 1099511627776 +
        b4 * 4294967296 + b3 * 16777216 + b2 * 65536 + b1 * 256 + b0) =
      b0 * 72057594037927936 + b1 * 281474976710656 + b2 * 1099511627776 +
        b3 * 4294967296 + b4 * 16777216 + b5 * 65536 + b6 * 256 + b7 := by
  have e0 : (b7 * 72057594037927936 + b6 * 281474976710656 + b5 * 1099511627776 +
      b4 * 4294967296 + b3 * 16777216 + b2 * 65536 + b1 * 256 + b0) % 256 = b0 := by omega
  have e1 : (b7 * 72057594037927936 + b6 * 281474976710656 + b5 * 1099511627776 +
      b4 * 4294967296 + b3 * 16777216 + b2 * 65536 + b1 * 256 + b0) / 256 % 256 = b1 := by
    omega
  have e2 : (b7 * 72057594037927936 + b6 * 281474976710656 + b5 * 1099511627776 +
      b4 * 4294967296 + b3 * 16777216 + b2 * 65536 + b1 * 256 + b0) / 65536 % 256 = b2 := by
    omega
  have e3 : (b7 * 72057594037927936 + b6 * 281474976710656 + b5 * 1099511627776 +
      b4 * 4294967296 + b3 * 16777216 + b2 * 65536 + b1 * 256 + b0) / 16777216 % 256
      = b3 := by omega
  have e4 : (b7 * 72057594037927936 + b6 * 281474976710656 + b5 * 1099511627776 +
      b4 * 4294967296 + b3 * 16777216 + b2 * 65536 + b1 * 256 + b0) / 4294967296 % 256
      = b4 := by omega
  have e5 : (b7 * 72057594037927936 + b6 * 281474976710656 + b5 * 1099511627776 +
      b4 * 4294967296 + b3 * 16777216 + b2 * 65536 + b1 * 256 + b0) / 1099511627776 % 256
      = b5 := by omega
  have e6 : (b7 * 72057594037927936 + b6 * 281474976710656 + b5 * 1099511627776 +
      b4 * 4294967296 + b3 * 16777216 + b2 * 65536 + b1 * 256 + b0) / 281474976710656 % 256
      = b6 := by omega
  have e7 : (b7 * 72057594037927936 + b6 * 281474976710656 + b5 * 1099511627776 +
      b4 * 4294967296 + b3 * 16777216 + b2 * 65536 + b1 * 256 + b0) / 72057594037927936 % 256
      = b7 := by omega
  simp only [uswap64, e0, e1, e2, e3, e4, e5, e6, e7]

/-- Two-byte decomposition of a 16-bit value. -/
lemma exists_bytes16 (x : ℕ) (hx : x < 2 ^ 16) :
    ∃ b1 b0, b1 < 256 ∧ b0 < 256 ∧ x = b1 * 256 + b0 :=
  ⟨x / 256, x % 256, by omega, by omega, by omega⟩

/-- Four-byte decomposition of a 32-bit value. -/
lemma exists_bytes32 (x : ℕ) (hx : x < 2 ^ 32) :
    ∃ b3 b2 b1 b0, b3 < 256 ∧ b2 < 256 ∧ b1 < 256 ∧ b0 < 256 ∧
      x = b3 * 16777216 + b2 * 65536 + b1 * 256 + b0 :=
  ⟨x / 16777216, x / 65536 % 256, x / 256 % 256, x % 256,
    by omega, by omega, by omega, by omega, by omega⟩

/-- Eight-byte decomposition of a 64-bit value. -/
lemma exists_bytes64 (x : ℕ) (hx : x < 2 ^ 64) :
    ∃ b7 b6 b5 b4 b3 b2 b1 b0, b7 < 256 ∧ b6 < 256 ∧ b5 < 256 ∧ b4 < 256 ∧
      b3 < 256 ∧ b2 < 256 ∧ b1 < 256 ∧ b0 < 256 ∧
      x = b7 * 72057594037927936 + b6 * 281474976710656 + b5 * 1099511627776 +
        b4 * 4294967296 + b3 * 16777216 + b2 * 65536 + b1 * 256 + b0 :=
  ⟨x / 72057594037927936, x / 281474976710656 % 256, x / 1099511627776 % 256,
    x / 4294967296 % 256, x / 16777216 % 256, x / 65536 % 256, x / 256 % 256, x % 256,
    by omega, by omega, by omega, by omega, by omega, by omega, by omega, by omega, by omega⟩

/-- Byte 0 of an explicit two-byte decomposition. -/
lemma byteAt16_0 (a1 a0 : ℕ) (h1 : a1 < 256) (h0 : a0 < 256) :
    byteAt (a1 * 256 + a0) 0 = a0 := by
  simp only [byteAt]; norm_num; omega

/-- Byte 1 of an explicit two-byte decomposition. -/
lemma byteAt16_1 (a1 a0 : ℕ) (h1 : a1 < 256) (h0 : a0 < 256) :
    byteAt (a1 * 256 + a0) 1 = a1 := by
  simp only [byteAt]; norm_num; omega

/-- Byte 0 of an explicit four-byte decomposition. -/
lemma byteAt32_0 (a3 a2 a1 a0 : ℕ)
    (h3 : a3 < 256) (h2 : a2 < 256) (h1 : a1 < 256) (h0 : a0 < 256) :
    byteAt (a3 * 16777216 + a2 * 65536 + a1 * 256 + a0) 0 = a0 := by
  simp only [byteAt]; norm_num; omega

/-- Byte 1 of an explicit four-byte decomposition. -/
lemma byteAt32_1 (a3 a2 a1 a0 : ℕ)
    (h3 : a3 < 256) (h2 : a2 < 256) (h1 : a1 < 256) (h0 : a0 < 256) :
    byteAt (a3 * 16777216 + a2 * 65536 + a1 * 256 + a0) 1 = a1 := by
  simp only [byteAt]; norm_num; omega

/-- Byte 2 of an explicit four-byte decomposition. -/
lemma byteAt32_2 (a3 a2 a1 a0 : ℕ)
    (h3 : a3 < 256) (h2 : a2 < 256) (h1 : a1 < 256) (h0 : a0 < 256) :
    byteAt (a3 * 16777216 + a2 * 65536 + a1 * 256 + a0) 2 = a2 := by
  simp only [byteAt]; norm_num; omega

/-- Byte 3 of an explicit four-byte decomposition. -/
lemma byteAt32_3 (a3 a2 a1 a0 : ℕ)
    (h3 : a3 < 256) (h2 : a2 < 256) (h1 : a1 < 256) (h0 : a0 < 256) :
    byteAt (a3 * 16777216 + a2 * 65536 + a1 * 256 + a0) 3 = a3 := by
  simp only [byteAt]; norm_num; omega

/-- Byte 0 of an explicit eight-byte decomposition. -/
lemma byteAt64_0 (a7 a6 a5 a4 a3 a2 a1 a0 : ℕ)
    (h7 : a7 < 256) (h6 : a6 < 256) (h5 : a5 < 256) (h4 : a4 < 256)
    (h3 : a3 < 256) (h2 : a2 < 256) (h1 : a1 < 256) (h0 : a0 < 256) :
    byteAt (a7 * 72057594037927936 + a6 * 281474976710656 + a5 * 1099511627776 +
      a4 * 4294967296 + a3 * 16777216 + a2 * 65536 + a1 * 256 + a0) 0 = a0 := by
  simp only [byteAt]; norm_num; omega

/-- Byte 1 of an explicit eight-byte decomposition. -/
lemma byteAt64_1 (a7 a6 a5 a4 a3 a2 a1 a0 : ℕ)
    (h7 : a7 < 256) (h6 : a6 < 256) (h5 : a5 < 256) (h4 : a4 < 256)
    (h3 : a3 < 256) (h2 : a2 < 256) (h1 : a1 < 256) (h0 : a0 < 256) :
    byteAt (a7 * 72057594037927936 + a6 * 281474976710656 + a5 * 1099511627776 +
      a4 * 4294967296 + a3 * 16777216 + a2 * 65536 + a1 * 256 + a0) 1 = a1 := by
  simp only [byteAt]; norm_num; omega

/-- Byte 2 of an explicit eight-byte decomposition. -/
lemma byteAt64_2 (a7 a6 a5 a4 a3 a2 a1 a0 : ℕ)
    (h7 : a7 < 256) (h6 : a6 < 256) (h5 : a5 < 256) (h4 : a4 < 256)
    (h3 : a3 < 256) (h2 : a2 < 256) (h1 : a1 < 256) (h0 : a0 < 256) :
    byteAt (a7 * 72057594037927936 + a6 * 281474976710656 + a5 * 1099511627776 +
      a4 * 4294967296 + a3 * 16777216 + a2 * 65536 + a1 * 256 + a0) 2 = a2 := by
  simp only [byteAt]; norm_num; omega

/-- Byte 3 of an explicit eight-byte decomposition. -/
lemma byteAt64_3 (a7 a6 a5 a4 a3 a2 a1 a0 : ℕ)
    (h7 : a7 < 256) (h6 : a6 < 256) (h5 : a5 < 256) (h4 : a4 < 256)
    (h3 : a3 < 256) (h2 : a2 < 256) (h1 : a1 < 256) (h0 : a0 < 256) :
    byteAt (a7 * 72057594037927936 + a6 * 281474976710656 + a5 * 1099511627776 +
      a4 * 4294967296 + a3 * 16777216 + a2 * 65536 + a1 * 256 + a0) 3 = a3 := by
  simp only [byteAt]; norm_num; omega

/-- Byte 4 of an explicit eight-byte decomposition. -/
lemma byteAt64_4 (a7 a6 a5 a4 a3 a2 a1 a0 : ℕ)
    (h7 : a7 < 256) (h6 : a6 < 256) (h5 : a5 < 256) (h4 : a4 < 256)
    (h3 : a3 < 256) (h2 : a2 < 256) (h1 : a1 < 256) (h0 : a0 < 256) :
    byteAt (a7 * 72057594037927936 + a6 * 281474976710656 + a5 * 1099511627776 +
      a4 * 4294967296 + a3 * 16777216 + a2 * 65536 + a1 * 256 + a0) 4 = a4 := by
  simp only [byteAt]; norm_num; omega

/-- Byte 5 of an explicit eight-byte decomposition. -/
lemma byteAt64_5 (a7 a6 a5 a4 a3 a2 a1 a0 : ℕ)
    (h7 : a7 < 256) (h6 : a6 < 256) (h5 : a5 < 256) (h4 : a4 < 256)
    (h3 : a3 < 256) (h2 : a2 < 256) (h1 : a1 < 256) (h0 : a0 < 256) :
    byteAt (a7 * 72057594037927936 + a6 * 281474976710656 + a5 * 1099511627776 +
      a4 * 4294967296 + a3 * 16777216 + a2 * 65536 + a1 * 256 + a0) 5 = a5 := by
  simp only [byteAt]; norm_num; omega

/-- Byte 6 of an explicit eight-byte decomposition. -/
lemma byteAt64_6 (a7 a6 a5 a4 a3 a2 a1 a0 : ℕ)
    (h7 : a7 < 256) (h6 : a6 < 256) (h5 : a5 < 256) (h4 : a4 < 256)
    (h3 : a3 < 256) (h2 : a2 < 256) (h1 : a1 < 256) (h0 : a0 < 256) :
    byteAt (a7 * 72057594037927936 + a6 * 281474976710656 + a5 * 1099511627776 +
      a4 * 4294967296 + a3 * 16777216 + a2 * 65536 + a1 * 256 + a0) 6 = a6 := by
  simp only [byteAt]; norm_num; omega

/-- Byte 7 of an explicit eight-byte decomposition. -/
lemma byteAt64_7 (a7 a6 a5 a4 a3 a2 a1 a0 : ℕ)
    (h7 : a7 < 256) (h6 : a6 < 256) (h5 : a5 < 256) (h4 : a4 < 256)
    (h3 : a3 < 256) (h2 : a2 < 256) (h1 : a1 < 256) (h0 : a0 < 256) :
    byteAt (a7 * 72057594037927936 + a6 * 281474976710656 + a5 * 1099511627776 +
      a4 * 4294967296 + a3 * 16777216 + a2 * 65536 + a1 * 256 + a0) 7 = a7 := by
  simp only [byteAt]; norm_num; omega

/-- `uswap16` moves the byte at position `i` to position `2 - 1 - i`. -/
lemma uswap16_byteAt (x : ℕ) (hx : x < 2 ^ 16) (i : ℕ) (hi : i < 2) :
    byteAt (uswap16 x) (2 - 1 - i) = byteAt x i := by
  obtain ⟨b1, b0, h1, h0, rfl⟩ := exists_bytes16 x hx
  rw [uswap16_bytes b1 b0 h1 h0]
  interval_cases i
  · exact (byteAt16_1 b0 b1 h0 h1).trans (byteAt16_0 b1 b0 h1 h0).symm
  · exact (byteAt16_0 b0 b1 h0 h1).trans (byteAt16_1 b1 b0 h1 h0).symm

/-- `uswap32` moves the byte at position `i` to position `4 - 1 - i`. -/
lemma uswap32_byteAt (x : ℕ) (hx : x < 2 ^ 32) (i : ℕ) (hi : i < 4) :
    byteAt (uswap32 x) (4 - 1 - i) = byteAt x i := by
  obtain ⟨b3, b2, b1, b0, h3, h2, h1, h0, rfl⟩ := exists_bytes32 x hx
  rw [uswap32_bytes b3 b2 b1 b0 h3 h2 h1 h0]
  interval_cases i
  · exact (byteAt32_3 b0 b1 b2 b3 h0 h1 h2 h3).trans
      (byteAt32_0 b3 b2 b1 b0 h3 h2 h1 h0).symm
  · exact (byteAt32_2 b0 b1 b2 b3 h0 h1 h2 h3).trans
      (byteAt32_1 b3 b2 b1 b0 h3 h2 h1 h0).symm
  · exact (byteAt32_1 b0 b1 b2 b3 h0 h1 h2 h3).trans
      (byteAt32_2 b3 b2 b1 b0 h3 h2 h1 h0).symm
  · exact (byteAt32_0 b0 b1 b2 b3 h0 h1 h2 h3).trans
      (byteAt32_3 b3 b2 b1 b0 h3 h2 h1 h0).symm

set_option maxHeartbeats 2000000 in
/-- `uswap64` moves the byte at position `i` to position `8 - 1 - i`. -/
lemma uswap64_byteAt (x : ℕ) (hx : x < 2 ^ 64) (i : ℕ) (hi : i < 8) :
    byteAt (uswap64 x) (8 - 1 - i) = byteAt x i := by
  obtain ⟨b7, b6, b5, b4, b3, b2, b1, b0, h7, h6, h5, h4, h3, h2, h1, h0, rfl⟩ :=
    exists_bytes64 x hx
  rw [uswap64_bytes b7 b6 b5 b4 b3 b2 b1 b0 h7 h6 h5 h4 h3 h2 h1 h0]
  interval_cases i
  · exact (byteAt64_7 b0 b1 b2 b3 b4 b5 b6 b7 h0 h1 h2 h3 h4 h5 h6 h7).trans
      (byteAt64_0 b7 b6 b5 b4 b3 b2 b1 b0 h7 h6 h5 h4 h3 h2 h1 h0).symm
  · exact (byteAt64_6 b0 b1 b2 b3 b4 b5 b6 b7 h0 h1 h2 h3 h4 h5 h6 h7).trans
      (byteAt64_1 b7 b6 b5 b4 b3 b2 b1 b0 h7 h6 h5 h4 h3 h2 h1 h0).symm
  · exact (byteAt64_5 b0 b1 b2 b3 b4 b5 b6 b7 h0 h1 h2 h3 h4 h5 h6 h7).trans
      (byteAt64_2 b7 b6 b5 b4 b3 b2 b1 b0 h7 h6 h5 h4 h3 h2 h1 h0).symm
  · exact (byteAt64_4 b0 b1 b2 b3 b4 b5 b6 b7 h0 h1 h2 h3 h4 h5 h6 h7).trans
      (byteAt64_3 b7 b6 b5 b4 b3 b2 b1 b0 h7 h6 h5 h4 h3 h2 h1 h0).symm
  · exact (byteAt64_3 b0 b1 b2 b3 b4 b5 b6 b7 h0 h1 h2 h3 h4 h5 h6 h7).trans
      (byteAt64_4 b7 b6 b5 b4 b3 b2 b1 b0 h7 h6 h5 h4 h3 h2 h1 h0).symm
  · exact (byteAt64_2 b0 b1 b2 b3 b4 b5 b6 b7 h0 h1 h2 h3 h4 h5 h6 h7).trans
      (byteAt64_5 b7 b6 b5 b4 b3 b2 b1 b0 h7 h6 h5 h4 h3 h2 h1 h0).symm
  · exact (byteAt64_1 b0 b1 b2 b3 b4 b5 b6 b7 h0 h1 h2 h3 h4 h5 h6 h7).trans
      (byteAt64_6 b7 b6 b5 b4 b3 b2 b1 b0 h7 h6 h5 h4 h3 h2 h1 h0).symm
  · exact (byteAt64_0 b0 b1 b2 b3 b4 b5 b6 b7 h0 h1 h2 h3 h4 h5 h6 h7).trans
      (byteAt64_7 b7 b6 b5 b4 b3 b2 b1 b0 h7 h6 h5 h4 h3 h2 h1 h0).symm

/-- `uswap16` is self-inverse on 16-bit values. -/
lemma uswap16_self_inverse (x : ℕ) (hx : x < 2 ^ 16) : uswap16 (uswap16 x) = x := by
  obtain ⟨b1, b0, h1, h0, rfl⟩ := exists_bytes16 x hx
  rw [uswap16_bytes b1 b0 h1 h0, uswap16_bytes b0 b1 h0 h1]

/-- `uswap32` is self-inverse on 32-bit values. -/
lemma uswap32_self_inverse (x : ℕ) (hx : x < 2 ^ 32) : uswap32 (uswap32 x) = x := by
  obtain ⟨b3, b2, b1, b0, h3, h2, h1, h0, rfl⟩ := exists_bytes32 x hx
  rw [uswap32_bytes b3 b2 b1 b0 h3 h2 h1 h0, uswap32_bytes b0 b1 b2 b3 h0 h1 h2 h3]

set_option maxHeartbeats 2000000 in
/-- `uswap64` is self-inverse on 64-bit values. -/
lemma uswap64_self_inverse (x : ℕ) (hx : x < 2 ^ 64) : uswap64 (uswap64 x) = x := by
  obtain ⟨b7, b6, b5, b4, b3, b2, b1, b0, h7, h6, h5, h4, h3, h2, h1, h0, rfl⟩ :=
    exists_bytes64 x hx
  rw [uswap64_bytes b7 b6 b5 b4 b3 b2 b1 b0 h7 h6 h5 h4 h3 h2 h1 h0,
    uswap64_bytes b0 b1 b2 b3 b4 b5 b6 b7 h0 h1 h2 h3 h4 h5 h6 h7]

/-- `uswap16` always produces a 16-bit value. -/
lemma uswap16_lt (x : ℕ) : uswap16 x < 2 ^ 16 := by
  simp only [uswap16]; omega

/-- `uswap32` always produces a 32-bit value. -/
lemma uswap32_lt (x : ℕ) : uswap32 x < 2 ^ 32 := by
  simp only [uswap32]; omega

/-- `uswap64` always produces a 64-bit value. -/
lemma uswap64_lt (x : ℕ) : uswap64 x < 2 ^ 64 := by
  simp only [uswap64]; omega

/-- `uswap16` commutes with the 16-bit bitwise complement `65535 - x`. -/
lemma uswap16_compl (x : ℕ) (hx : x < 2 ^ 16) :
    uswap16 (65535 - x) = 65535 - uswap16 x := by
  obtain ⟨b1, b0, h1, h0, rfl⟩ := exists_bytes16 x hx
  have h : 65535 - (b1 * 256 + b0) = (255 - b1) * 256 + (255 - b0) := by omega
  rw [h, uswap16_bytes (255 - b1) (255 - b0) (by omega) (by omega),
    uswap16_bytes b1 b0 h1 h0]
  omega

/-- `uswap32` commutes with the 32-bit bitwise complement `4294967295 - x`. -/
lemma uswap32_compl (x : ℕ) (hx : x < 2 ^ 32) :
    uswap32 (4294967295 - x) = 4294967295 - uswap32 x := by
  obtain ⟨b3, b2, b1, b0, h3, h2, h1, h0, rfl⟩ := exists_bytes32 x hx
  have h : 4294967295 - (b3 * 16777216 + b2 * 65536 + b1 * 256 + b0) =
      (255 - b3) * 16777216 + (255 - b2) * 65536 + (255 - b1) * 256 + (255 - b0) := by
    omega
  rw [h, uswap32_bytes (255 - b3) (255 - b2) (255 - b1) (255 - b0)
      (by omega) (by omega) (by omega) (by omega),
    uswap32_bytes b3 b2 b1 b0 h3 h2 h1 h0]
  omega

set_option maxHeartbeats 2000000 in
/-- `uswap64` commutes with the 64-bit bitwise complement
`18446744073709551615 - x`. -/
lemma uswap64_compl (x : ℕ) (hx : x < 2 ^ 64) :
    uswap64 (18446744073709551615 - x) = 18446744073709551615 - uswap64 x := by
  obtain ⟨b7, b6, b5, b4, b3, b2, b1, b0, h7, h6, h5, h4, h3, h2, h1, h0, rfl⟩ :=
    exists_bytes64 x hx
  have h : 18446744073709551615 - (b7 * 72057594037927936 + b6 * 281474976710656 +
      b5 * 1099511627776 + b4 * 4294967296 + b3 * 16777216 + b2 * 65536 + b1 * 256 + b0) =
      (255 - b7) * 72057594037927936 + (255 - b6) * 281474976710656 +
      (255 - b5) * 1099511627776 + (255 - b4) * 4294967296 + (255 - b3) * 16777216 +
      (255 - b2) * 65536 + (255 - b1) * 256 + (255 - b0) := by omega
  rw [h, uswap64_bytes (255 - b7) (255 - b6) (255 - b5) (255 - b4) (255 - b3) (255 - b2)
      (255 - b1) (255 - b0) (by omega) (by omega) (by omega) (by omega) (by omega)
      (by omega) (by omega) (by omega),
    uswap64_bytes b7 b6 b5 b4 b3 b2 b1 b0 h7 h6 h5 h4 h3 h2 h1 h0]
  omega

/-! ### Claims -/

/-- C1: for every width W in \x7b16, 32, 64\x7d and order O in
\x7blittle, big\x7d, under both endianness configurations: when the CPU's
native order equals O, `cpu_to_<O>W` is the identity on every W-bit value;
otherwise it byte-reverses its argument — the byte at position `i` moves to
position `W/8 - 1 - i`. -/
theorem cpu_to_order_identity_or_byte_reversal (le : Bool) :
    (∀ x, x < 2 ^ 16 →
      (le = true → cpu_to_le16 le x = x) ∧
      (le = false → cpu_to_be16 le x = x) ∧
      (le = false → ∀ i, i < 2 → byteAt (cpu_to_le16 le x) (2 - 1 - i) = byteAt x i) ∧
      (le = true → ∀ i, i < 2 → byteAt (cpu_to_be16 le x) (2 - 1 - i) = byteAt x i)) ∧
    (∀ x, x < 2 ^ 32 →
      (le = true → cpu_to_le32 le x = x) ∧
      (le = false → cpu_to_be32 le x = x) ∧
      (le = false → ∀ i, i < 4 → byteAt (cpu_to_le32 le x) (4 - 1 - i) = byteAt x i) ∧
      (le = true → ∀ i, i < 4 → byteAt (cpu_to_be32 le x) (4 - 1 - i) = byteAt x i)) ∧
    (∀ x, x < 2 ^ 64 →
      (le = true → cpu_to_le64 le x = x) ∧
      (le = false → cpu_to_be64 le x = x) ∧
      (le = false → ∀ i, i < 8 → byteAt (cpu_to_le64 le x) (8 - 1 - i) = byteAt x i) ∧
      (le = true → ∀ i, i < 8 → byteAt (cpu_to_be64 le x) (8 - 1 - i) = byteAt x i)) := by
  refine ⟨fun x hx => ⟨fun h => ?_, fun h => ?_, fun h i hi => ?_, fun h i hi => ?_⟩,
    fun x hx => ⟨fun h => ?_, fun h => ?_, fun h i hi => ?_, fun h i hi => ?_⟩,
    fun x hx => ⟨fun h => ?_, fun h => ?_, fun h i hi => ?_, fun h i hi => ?_⟩⟩ <;> subst h
  · rfl
  · rfl
  · exact uswap16_byteAt x hx i hi
  · exact uswap16_byteAt x hx i hi
  · rfl
  · rfl
  · exact uswap32_byteAt x hx i hi
  · exact uswap32_byteAt x hx i hi
  · rfl
  · rfl
  · exact uswap64_byteAt x hx i hi
  · exact uswap64_byteAt x hx i hi

/-- Witness for C1: concrete instances of the identity and byte-reversal
branches at width 16. -/
theorem cpu_to_order_identity_or_byte_reversal_witness :
    cpu_to_le16 true 0xABCD = 0xABCD ∧
    byteAt (cpu_to_be16 true 0x0102) (2 - 1 - 0) = byteAt 0x0102 0 :=
  ⟨((cpu_to_order_identity_or_byte_reversal true).1 0xABCD (by norm_num)).1 rfl,
    ((cpu_to_order_identity_or_byte_reversal true).1 0x0102 (by norm_num)).2.2.2
      rfl 0 (by norm_num)⟩

/-- C2: concrete conversion values — under the little-endian configuration
`cpu_to_be16 0x0102 = 0x0201`, `cpu_to_be32 0x01020304 = 0x04030201`,
`cpu_to_be64 0x0102030405060708 = 0x0807060504030201`,
`cpu_to_le16 0xABCD = 0xABCD`, `cpu_to_be16 0xABCD = 0xCDAB`; under the
big-endian configuration the two 0xABCD results swap roles. -/
theorem little_endian_concrete_conversions :
    cpu_to_be16 true 0x0102 = 0x0201 ∧
    cpu_to_be32 true 0x01020304 = 0x04030201 ∧
    cpu_to_be64 true 0x0102030405060708 = 0x0807060504030201 ∧
    cpu_to_le16 true 0xABCD = 0xABCD ∧
    cpu_to_be16 true 0xABCD = 0xCDAB ∧
    cpu_to_be16 false 0xABCD = 0xABCD ∧
    cpu_to_le16 false 0xABCD = 0xCDAB := by
  decide

/-- C3: each reverse-direction conversion equals the corresponding forward
conversion, for every configuration and every argument: the source defines
the `<O>W_to_cpu` functions as literal aliases of `cpu_to_<O>W`. -/
theorem to_cpu_aliases_cpu_to (le : Bool) (x : ℕ) :
    le16_to_cpu le x = cpu_to_le16 le x ∧
    le32_to_cpu le x = cpu_to_le32 le x ∧
    le64_to_cpu le x = cpu_to_le64 le x ∧
    be16_to_cpu le x = cpu_to_be16 le x ∧
    be32_to_cpu le x = cpu_to_be32 le x ∧
    be64_to_cpu le x = cpu_to_be64 le x :=
  ⟨rfl, rfl, rfl, rfl, rfl, rfl⟩

/-- C4: involution — `<O>W_to_cpu (cpu_to_<O>W x) = x` for every width,
order and configuration; when the target order differs from the native one,
applying `cpu_to_<O>W` twice returns the original value; and the underlying
byte swap is self-inverse. -/
theorem conversion_involution (le : Bool) :
    (∀ x, x < 2 ^ 16 →
      le16_to_cpu le (cpu_to_le16 le x) = x ∧
      be16_to_cpu le (cpu_to_be16 le x) = x ∧
      (le = false → cpu_to_le16 le (cpu_to_le16 le x) = x) ∧
      (le = true → cpu_to_be16 le (cpu_to_be16 le x) = x) ∧
      uswap16 (uswap16 x) = x) ∧
    (∀ x, x < 2 ^ 32 →
      le32_to_cpu le (cpu_to_le32 le x) = x ∧
      be32_to_cpu le (cpu_to_be32 le x) = x ∧
      (le = false → cpu_to_le32 le (cpu_to_le32 le x) = x) ∧
      (le = true → cpu_to_be32 le (cpu_to_be32 le x) = x) ∧
      uswap32 (uswap32 x) = x) ∧
    (∀ x, x < 2 ^ 64 →
      le64_to_cpu le (cpu_to_le64 le x) = x ∧
      be64_to_cpu le (cpu_to_be64 le x) = x ∧
      (le = false → cpu_to_le64 le (cpu_to_le64 le x) = x) ∧
      (le = true → cpu_to_be64 le (cpu_to_be64 le x) = x) ∧
      uswap64 (uswap64 x) = x) := by
  refine ⟨fun x hx => ⟨?_, ?_, fun h => ?_, fun h => ?_, uswap16_self_inverse x hx⟩,
    fun x hx => ⟨?_, ?_, fun h => ?_, fun h => ?_, uswap32_self_inverse x hx⟩,
    fun x hx => ⟨?_, ?_, fun h => ?_, fun h => ?_, uswap64_self_inverse x hx⟩⟩
  · cases le
    · exact uswap16_self_inverse x hx
    · rfl
  · cases le
    · rfl
    · exact uswap16_self_inverse x hx
  · subst h; exact uswap16_self_inverse x hx
  · subst h; exact uswap16_self_inverse x hx
  · cases le
    · exact uswap32_self_inverse x hx
    · rfl
  · cases le
    · rfl
    · exact uswap32_self_inverse x hx
  · subst h; exact uswap32_self_inverse x hx
  · subst h; exact uswap32_self_inverse x hx
  · cases le
    · exact uswap64_self_inverse x hx
    · rfl
  · cases le
    · rfl
    · exact uswap64_self_inverse x hx
  · subst h; exact uswap64_self_inverse x hx
  · subst h; exact uswap64_self_inverse x hx

/-- Witness for C4: round trips at concrete 16-bit inputs under both
configurations. -/
theorem conversion_involution_witness :
    le16_to_cpu true (cpu_to_le16 true 0xABCD) = 0xABCD ∧
    be16_to_cpu false (cpu_to_be16 false 0x1234) = 0x1234 :=
  ⟨((conversion_involution true).1 0xABCD (by norm_num)).1,
    ((conversion_involution false).1 0x1234 (by norm_num)).2.1⟩

/-- C5: mutual exclusivity and exhaustiveness of the endianness queries —
under every build configuration exactly one of `is_cpu_le()` and
`is_cpu_be()` is true. -/
theorem is_cpu_le_ne_is_cpu_be (le : Bool) :
    is_cpu_le le ≠ is_cpu_be le ∧
    (is_cpu_le le = true ↔ ¬ is_cpu_be le = true) := by
  cases le
  · exact ⟨by decide, by decide⟩
  · exact ⟨by decide, by decide⟩

/-- C6: when the build configuration does not resolve the endianness (no
recognized toolchain macro and no command-line `HODEA_IS_CPU_LE`), the
preprocessor emits the `#error` diagnostics naming the override mechanism
`HODEA_IS_CPU_LE = true or false`; when it does resolve, no diagnostics are
emitted and every conversion function maps every W-bit input to a
well-defined W-bit output. -/
theorem endianness_resolution_diagnostics_and_totality
    (cmdline : Option Bool) (tc : Toolchain) :
    (resolveIsCpuLe cmdline tc = none →
      errorDirectives cmdline tc =
        ["Unable to detect cpu endianness via predefined macros.",
         "Please provide HODEA_IS_CPU_LE = true or false via command line."]) ∧
    (∀ b, resolveIsCpuLe cmdline tc = some b →
      errorDirectives cmdline tc = [] ∧
      (∀ x, x < 2 ^ 16 → cpu_to_le16 b x < 2 ^ 16 ∧ cpu_to_be16 b x < 2 ^ 16 ∧
        le16_to_cpu b x < 2 ^ 16 ∧ be16_to_cpu b x < 2 ^ 16) ∧
      (∀ x, x < 2 ^ 32 → cpu_to_le32 b x < 2 ^ 32 ∧ cpu_to_be32 b x < 2 ^ 32 ∧
        le32_to_cpu b x < 2 ^ 32 ∧ be32_to_cpu b x < 2 ^ 32) ∧
      (∀ x, x < 2 ^ 64 → cpu_to_le64 b x < 2 ^ 64 ∧ cpu_to_be64 b x < 2 ^ 64 ∧
        le64_to_cpu b x < 2 ^ 64 ∧ be64_to_cpu b x < 2 ^ 64)) := by
  constructor
  · intro h
    simp [errorDirectives, h]
  · intro b hb
    refine ⟨by simp [errorDirectives, hb], fun x hx => ?_, fun x hx => ?_, fun x hx => ?_⟩
    · cases b
      · exact ⟨uswap16_lt x, hx, uswap16_lt x, hx⟩
      · exact ⟨hx, uswap16_lt x, hx, uswap16_lt x⟩
    · cases b
      · exact ⟨uswap32_lt x, hx, uswap32_lt x, hx⟩
      · exact ⟨hx, uswap32_lt x, hx, uswap32_lt x⟩
    · cases b
      · exact ⟨uswap64_lt x, hx, uswap64_lt x, hx⟩
      · exact ⟨hx, uswap64_lt x, hx, uswap64_lt x⟩

/-- Witness for C6: with no command-line value and an unrecognized
toolchain, the two `#error` diagnostics are emitted; with a resolved
configuration, a concrete conversion result stays in range. -/
theorem endianness_resolution_diagnostics_and_totality_witness :
    errorDirectives none Toolchain.other =
      ["Unable to detect cpu endianness via predefined macros.",
       "Please provide HODEA_IS_CPU_LE = true or false via command line."] ∧
    cpu_to_le16 true 0xFFFF < 2 ^ 16 :=
  ⟨(endianness_resolution_diagnostics_and_totality none Toolchain.other).1 rfl,
    (((endianness_resolution_diagnostics_and_totality (some true) Toolchain.other).2
      true rfl).2.1 0xFFFF (by norm_num)).1⟩

/-- C7: the all-zero and all-one bit patterns of each width are fixed
points of all twelve conversion functions under both configurations. -/
theorem boundary_patterns_invariant (le : Bool) :
    cpu_to_le16 le 0 = 0 ∧ cpu_to_le16 le 0xFFFF = 0xFFFF ∧
    cpu_to_be16 le 0 = 0 ∧ cpu_to_be16 le 0xFFFF = 0xFFFF ∧
    le16_to_cpu le 0 = 0 ∧ le16_to_cpu le 0xFFFF = 0xFFFF ∧
    be16_to_cpu le 0 = 0 ∧ be16_to_cpu le 0xFFFF = 0xFFFF ∧
    cpu_to_le32 le 0 = 0 ∧ cpu_to_le32 le 0xFFFFFFFF = 0xFFFFFFFF ∧
    cpu_to_be32 le 0 = 0 ∧ cpu_to_be32 le 0xFFFFFFFF = 0xFFFFFFFF ∧
    le32_to_cpu le 0 = 0 ∧ le32_to_cpu le 0xFFFFFFFF = 0xFFFFFFFF ∧
    be32_to_cpu le 0 = 0 ∧ be32_to_cpu le 0xFFFFFFFF = 0xFFFFFFFF ∧
    cpu_to_le64 le 0 = 0 ∧
    cpu_to_le64 le 0xFFFFFFFFFFFFFFFF = 0xFFFFFFFFFFFFFFFF ∧
    cpu_to_be64 le 0 = 0 ∧
    cpu_to_be64 le 0xFFFFFFFFFFFFFFFF = 0xFFFFFFFFFFFFFFFF ∧
    le64_to_cpu le 0 = 0 ∧
    le64_to_cpu le 0xFFFFFFFFFFFFFFFF = 0xFFFFFFFFFFFFFFFF ∧
    be64_to_cpu le 0 = 0 ∧
    be64_to_cpu le 0xFFFFFFFFFFFFFFFF = 0xFFFFFFFFFFFFFFFF := by
  cases le
  · decide
  · decide

/-- C8: composing the little- and big-endian conversions (in either order)
yields the unconditional byte swap — exactly one of the two compositions
swaps — and hence, on W-bit values, the full byte reversal. -/
theorem le_be_composition_is_byte_reversal (le : Bool) :
    (∀ x, cpu_to_le16 le (cpu_to_be16 le x) = uswap16 x ∧
      cpu_to_be16 le (cpu_to_le16 le x) = uswap16 x) ∧
    (∀ x, cpu_to_le32 le (cpu_to_be32 le x) = uswap32 x ∧
      cpu_to_be32 le (cpu_to_le32 le x) = uswap32 x) ∧
    (∀ x, cpu_to_le64 le (cpu_to_be64 le x) = uswap64 x ∧
      cpu_to_be64 le (cpu_to_le64 le x) = uswap64 x) ∧
    (∀ x, x < 2 ^ 16 → ∀ i, i < 2 →
      byteAt (cpu_to_le16 le (cpu_to_be16 le x)) (2 - 1 - i) = byteAt x i) ∧
    (∀ x, x < 2 ^ 32 → ∀ i, i < 4 →
      byteAt (cpu_to_le32 le (cpu_to_be32 le x)) (4 - 1 - i) = byteAt x i) ∧
    (∀ x, x < 2 ^ 64 → ∀ i, i < 8 →
      byteAt (cpu_to_le64 le (cpu_to_be64 le x)) (8 - 1 - i) = byteAt x i) := by
  refine ⟨fun x => ?_, fun x => ?_, fun x => ?_,
    fun x hx i hi => ?_, fun x hx i hi => ?_, fun x hx i hi => ?_⟩
  · cases le
    · exact ⟨rfl, rfl⟩
    · exact ⟨rfl, rfl⟩
  · cases le
    · exact ⟨rfl, rfl⟩
    · exact ⟨rfl, rfl⟩
  · cases le
    · exact ⟨rfl, rfl⟩
    · exact ⟨rfl, rfl⟩
  · cases le
    · exact uswap16_byteAt x hx i hi
    · exact uswap16_byteAt x hx i hi
  · cases le
    · exact uswap32_byteAt x hx i hi
    · exact uswap32_byteAt x hx i hi
  · cases le
    · exact uswap64_byteAt x hx i hi
    · exact uswap64_byteAt x hx i hi

/-- Witness for C8: the composed conversions at a concrete 16-bit input. -/
theorem le_be_composition_is_byte_reversal_witness :
    cpu_to_le16 true (cpu_to_be16 true 0x0102) = uswap16 0x0102 ∧
    byteAt (cpu_to_le16 false (cpu_to_be16 false 0x0102)) (2 - 1 - 0) =
      byteAt 0x0102 0 :=
  ⟨((le_be_composition_is_byte_reversal true).1 0x0102).1,
    (le_be_composition_is_byte_reversal false).2.2.2.1 0x0102 (by norm_num)
      0 (by norm_num)⟩

/-- C9: every conversion function commutes with the W-bit bitwise
complement.  On a W-bit unsigned value the complement `~x` equals
`2^W - 1 - x`, written below with numerals. -/
theorem conversion_commutes_with_complement (le : Bool) :
    (∀ x, x < 2 ^ 16 →
      cpu_to_le16 le (65535 - x) = 65535 - cpu_to_le16 le x ∧
      cpu_to_be16 le (65535 - x) = 65535 - cpu_to_be16 le x ∧
      le16_to_cpu le (65535 - x) = 65535 - le16_to_cpu le x ∧
      be16_to_cpu le (65535 - x) = 65535 - be16_to_cpu le x) ∧
    (∀ x, x < 2 ^ 32 →
      cpu_to_le32 le (4294967295 - x) = 4294967295 - cpu_to_le32 le x ∧
      cpu_to_be32 le (4294967295 - x) = 4294967295 - cpu_to_be32 le x ∧
      le32_to_cpu le (4294967295 - x) = 4294967295 - le32_to_cpu le x ∧
      be32_to_cpu le (4294967295 - x) = 4294967295 - be32_to_cpu le x) ∧
    (∀ x, x < 2 ^ 64 →
      cpu_to_le64 le (18446744073709551615 - x) =
        18446744073709551615 - cpu_to_le64 le x ∧
      cpu_to_be64 le (18446744073709551615 - x) =
        18446744073709551615 - cpu_to_be64 le x ∧
      le64_to_cpu le (18446744073709551615 - x) =
        18446744073709551615 - le64_to_cpu le x ∧
      be64_to_cpu le (18446744073709551615 - x) =
        18446744073709551615 - be64_to_cpu le x) := by
  refine ⟨fun x hx => ⟨?_, ?_, ?_, ?_⟩, fun x hx => ⟨?_, ?_, ?_, ?_⟩,
    fun x hx => ⟨?_, ?_, ?_, ?_⟩⟩
  · cases le
    · exact uswap16_compl x hx
    · rfl
  · cases le
    · rfl
    · exact uswap16_compl x hx
  · cases le
    · exact uswap16_compl x hx
    · rfl
  · cases le
    · rfl
    · exact uswap16_compl x hx
  · cases le
    · exact uswap32_compl x hx
    · rfl
  · cases le
    · rfl
    · exact uswap32_compl x hx
  · cases le
    · exact uswap32_compl x hx
    · rfl
  · cases le
    · rfl
    · exact uswap32_compl x hx
  · cases le
    · exact uswap64_compl x hx
    · rfl
  · cases le
    · rfl
    · exact uswap64_compl x hx
  · cases le
    · exact uswap64_compl x hx
    · rfl
  · cases le
    · rfl
    · exact uswap64_compl x hx

/-- Witness for C9: complement commutation at a concrete 16-bit input in
the swapping branch. -/
theorem conversion_commutes_with_complement_witness :
    cpu_to_be16 true (65535 - 0x0102) = 65535 - cpu_to_be16 true 0x0102 :=
  ((conversion_commutes_with_complement true).1 0x0102 (by norm_num)).2.1

/-- C10: determinism — each of the twelve conversion functions is a pure
function of its argument and the build-time endianness constant: equal
configurations and equal inputs give equal outputs. -/
theorem conversions_deterministic (le₁ le₂ : Bool) (x₁ x₂ : ℕ)
    (hle : le₁ = le₂) (hx : x₁ = x₂) :
    cpu_to_le16 le₁ x₁ = cpu_to_le16 le₂ x₂ ∧
    cpu_to_le32 le₁ x₁ = cpu_to_le32 le₂ x₂ ∧
    cpu_to_le64 le₁ x₁ = cpu_to_le64 le₂ x₂ ∧
    cpu_to_be16 le₁ x₁ = cpu_to_be16 le₂ x₂ ∧
    cpu_to_be32 le₁ x₁ = cpu_to_be32 le₂ x₂ ∧
    cpu_to_be64 le₁ x₁ = cpu_to_be64 le₂ x₂ ∧
    le16_to_cpu le₁ x₁ = le16_to_cpu le₂ x₂ ∧
    le32_to_cpu le₁ x₁ = le32_to_cpu le₂ x₂ ∧
    le64_to_cpu le₁ x₁ = le64_to_cpu le₂ x₂ ∧
    be16_to_cpu le₁ x₁ = be16_to_cpu le₂ x₂ ∧
    be32_to_cpu le₁ x₁ = be32_to_cpu le₂ x₂ ∧
    be64_to_cpu le₁ x₁ = be64_to_cpu le₂ x₂ := by
  subst hle; subst hx
  exact ⟨rfl, rfl, rfl, rfl, rfl, rfl, rfl, rfl, rfl, rfl, rfl, rfl⟩

/-- Witness for C10: determinism instantiated at a concrete configuration
and input. -/
theorem conversions_deterministic_witness :
    cpu_to_le16 true 0xABCD = cpu_to_le16 true 0xABCD ∧
    cpu_to_le32 true 0xABCD = cpu_to_le32 true 0xABCD ∧
    cpu_to_le64 true 0xABCD = cpu_to_le64 true 0xABCD ∧
    cpu_to_be16 true 0xABCD = cpu_to_be16 true 0xABCD ∧
    cpu_to_be32 true 0xABCD = cpu_to_be32 true 0xABCD ∧
    cpu_to_be64 true 0xABCD = cpu_to_be64 true 0xABCD ∧
    le16_to_cpu true 0xABCD = le16_to_cpu true 0xABCD ∧
    le32_to_cpu true 0xABCD = le32_to_cpu true 0xABCD ∧
    le64_to_cpu true 0xABCD = le64_to_cpu true 0xABCD ∧
    be16_to_cpu true 0xABCD = be16_to_cpu true 0xABCD ∧
    be32_to_cpu true 0xABCD = be32_to_cpu true 0xABCD ∧
    be64_to_cpu true 0xABCD = be64_to_cpu true 0xABCD :=
  conversions_deterministic true true 0xABCD 0xABCD rfl rfl

end Hodea
